import Mathlib

/-!
# Verification of the multi-provider temperature aggregation engine

Shallow embedding of the aggregation server (`server.js`, plus the
cached-scrape server snapshot in the repository's unnamed sources) and the
report assembler (`app.js`).

Modelling conventions:
* JS numbers are modelled as rationals (`ℚ`); `Math.round` is `⌊x + 1/2⌋`,
  which matches JS semantics (round half toward `+∞`).
* `null`/`undefined`-able values are `Option`s; fallible network calls are
  `Except Unit` values supplied by an environment record, one field per
  upstream fetch (an `.error` models any transport error, HTTP error
  status, malformed body, or timeout — all of which `safeFetch` turns into
  a rejection that each task's `.catch(() => {})` absorbs).  Regex
  extraction over raw HTML/search text is abstracted to its result (the
  extracted number, or `none` when no pattern matched): the regex engine
  itself is not the subject of any claim.
* Wall-clock times are integers (milliseconds); calendar days are integers
  (the ISO date string of day `n` is modelled as `toString n`).
* `String.toLower` and whitespace-trimming are re-implemented structurally
  over `List Char` (the core versions do not reduce in the kernel); on the
  ASCII strings involved they agree with JS `toLowerCase` / `parseInt`
  trimming.
-/

/-! ## Numeric helpers (`cToF` / `fToC`, `server.js` lines 100–106) -/

/-- `Math.round` of JavaScript: floor of `x + 1/2` (half rounds toward `+∞`). -/
def jsRound (x : ℚ) : ℤ := ⌊x + 1/2⌋

/-- `Math.round(x * 10) / 10`: rounding to one decimal place, as used
throughout the source. -/
def round10 (x : ℚ) : ℚ := (jsRound (x * 10) : ℚ) / 10

/-- `cToF` from `server.js` (on a non-null argument):
`Math.round((c * 9 / 5 + 32) * 10) / 10`. -/
def cToF (c : ℚ) : ℚ := round10 (c * 9 / 5 + 32)

/-- `fToC` from `server.js` (on a non-null argument):
`Math.round(((f - 32) * 5 / 9) * 10) / 10`. -/
def fToC (f : ℚ) : ℚ := round10 ((f - 32) * 5 / 9)

/-- JS `toLowerCase` on ASCII strings, implemented structurally. -/
def jsToLower (s : String) : String := ⟨s.data.map Char.toLower⟩

/-! ## Data model -/

/-- The station's display unit, `'C'` or `'F'` in the source. -/
inductive TempUnit
  | C
  | F
deriving DecidableEq, Repr

/-- Discriminator of a normalized `Source` record (`type` field). -/
inductive SourceKind
  | live
  | recorded
  | forecast
  | model
  | scraped
deriving DecidableEq, Repr

/-- One `{temp_c, temp_f}` pair of a `model` source's `dailyMax` map. -/
structure TempPair where
  temp_c : Option ℚ
  temp_f : Option ℚ
deriving DecidableEq, Repr

/-- One entry of a `forecast` source's `forecasts` array. -/
structure ForecastEntry where
  name : Option String
  temp_f : Option ℚ
  temp_c : Option ℚ
  startTime : Option String
  shortForecast : Option String
deriving DecidableEq, Repr

/-- A normalized source record.  JS objects of the five kinds carry
different subsets of these fields; absent fields are `none`. -/
structure Source where
  id : String
  name : String
  type : SourceKind
  temp_c : Option ℚ := none
  temp_f : Option ℚ := none
  time : Option String := none
  date : Option String := none
  forecasts : Option (List ForecastEntry) := none
  days : Option (List String) := none
  dailyMax : Option (List (String × TempPair)) := none
  url : Option String := none
deriving DecidableEq, Repr

/-- One scrape target of the v1 station config (`scrapperUrls` entries). -/
structure ScrapeSite where
  id : String
  name : String
  url : String
deriving DecidableEq, Repr

/-- `nwsGrid` sub-object of a station config. -/
structure NwsGrid where
  office : String
  x : ℕ
  y : ℕ
deriving DecidableEq, Repr

/-- A station registry entry.  The union of the fields appearing in
`server.js` (`metOfficeUrl`/`wuUrl`/`wuUnit`) and in the cached-scrape
snapshot (`scrapperUrls`); fields a snapshot does not declare are `none`. -/
structure StationConfig where
  icao : String
  name : String
  displayName : String
  lat : ℚ
  lon : ℚ
  timezone : String
  unit : TempUnit
  openMeteoModels : List String
  modelLabels : List (String × String)
  nwsStation : Option String
  nwsGrid : Option NwsGrid
  iemNetwork : Option String
  metOfficeUrl : Option String := none
  wuUrl : Option String := none
  wuUnit : Option TempUnit := none
  scrapperUrls : Option (List ScrapeSite) := none
deriving DecidableEq, Repr

/-! ## Station registry of `server.js` (lines 15–97) -/

def londonCfg : StationConfig where
  icao := "EGLL"
  name := "London City Airport"
  displayName := "LONDON"
  lat := 514775/10000
  lon := -4614/10000
  timezone := "Europe/London"
  unit := .C
  openMeteoModels := ["ecmwf_ifs025", "gfs_seamless", "meteofrance_arome_france_hd", "ukmo_seamless"]
  modelLabels := [("ecmwf_ifs025", "ECMWF"), ("gfs_seamless", "GFS"),
    ("meteofrance_arome_france_hd", "AROME"), ("ukmo_seamless", "UKMO")]
  nwsStation := none
  nwsGrid := none
  iemNetwork := none
  metOfficeUrl := some "https://www.metoffice.gov.uk/weather/forecast/gcpvj0v07"
  wuUrl := some "https://www.wunderground.com/forecast/gb/london"
  wuUnit := some .C

def parisCfg : StationConfig where
  icao := "LFPG"
  name := "Paris Charles de Gaulle"
  displayName := "PARIS"
  lat := 490097/10000
  lon := 25479/10000
  timezone := "Europe/Paris"
  unit := .C
  openMeteoModels := ["ecmwf_ifs025", "gfs_seamless", "meteofrance_arome_france_hd", "ukmo_seamless"]
  modelLabels := [("ecmwf_ifs025", "ECMWF"), ("gfs_seamless", "GFS"),
    ("meteofrance_arome_france_hd", "AROME"), ("ukmo_seamless", "UKMO")]
  nwsStation := none
  nwsGrid := none
  iemNetwork := none
  wuUrl := some "https://www.wunderground.com/forecast/fr/paris"
  wuUnit := some .C

def dallasCfg : StationConfig where
  icao := "KDAL"
  name := "Dallas Love Field"
  displayName := "DALLAS"
  lat := 328471/10000
  lon := -968518/10000
  timezone := "America/Chicago"
  unit := .F
  openMeteoModels := ["ecmwf_ifs025", "gfs_seamless"]
  modelLabels := [("ecmwf_ifs025", "ECMWF"), ("gfs_seamless", "GFS")]
  nwsStation := some "KDAL"
  nwsGrid := some ⟨"FWD", 85, 106⟩
  iemNetwork := some "TX_ASOS"
  wuUrl := some "https://www.wunderground.com/forecast/us/tx/dallas"
  wuUnit := some .F

def miamiCfg : StationConfig where
  icao := "KMIA"
  name := "Miami Intl Airport"
  displayName := "MIAMI"
  lat := 257932/10000
  lon := -802906/10000
  timezone := "America/New_York"
  unit := .F
  openMeteoModels := ["ecmwf_ifs025", "gfs_seamless"]
  modelLabels := [("ecmwf_ifs025", "ECMWF"), ("gfs_seamless", "GFS")]
  nwsStation := some "KMIA"
  nwsGrid := some ⟨"MFL", 76, 52⟩
  iemNetwork := some "FL_ASOS"
  wuUrl := some "https://www.wunderground.com/forecast/us/fl/miami"
  wuUnit := some .F

/-- The `STATIONS` object of `server.js`, as a key → config association. -/
def STATIONS : List (String × StationConfig) :=
  [("london", londonCfg), ("paris", parisCfg), ("dallas", dallasCfg), ("miami", miamiCfg)]

/-! ## Upstream payload shapes and the fetch environment (`server.js`) -/

/-- One element of the METAR JSON array. -/
structure MetarObs where
  temp : Option ℚ
  reportTime : Option String
deriving DecidableEq, Repr

/-- The `properties` object of an NWS observation response
(`temperature.value` and `timestamp` flattened out). -/
structure NwsProps where
  temperatureValue : Option ℚ
  timestamp : Option String
deriving DecidableEq, Repr

/-- One NWS forecast period. -/
structure NwsPeriod where
  name : String
  isDaytime : Bool
  temperature : ℚ
  startTime : Option String
  shortForecast : Option String
deriving DecidableEq, Repr

/-- The `daily` object of an Open-Meteo multi-model response: the `time`
array and one `temperature_2m_max_<model>` series per covered model
(series values may be JSON `null`). -/
structure OmDaily where
  time : Option (List String)
  series : List (String × List (Option ℚ))
deriving DecidableEq, Repr

/-- One element of the IEM `data` array. -/
structure IemEntry where
  max_tmpf : Option ℚ
  date : Option String
deriving DecidableEq, Repr

/-- Outcomes of the seven upstream calls of the `/api/all/:city` route in
`server.js`.  `.error` = the fetch rejected (transport/HTTP/parse/timeout);
the two scrape fields carry the result of `extractFirstTemp` on the fetched
page (`none` = no pattern matched). -/
structure ServerEnv where
  metar : Except Unit (List MetarObs)
  nwsObs : Except Unit (Option NwsProps)
  nwsForecast : Except Unit (Option (List NwsPeriod))
  openMeteo : Except Unit (Option OmDaily)
  iem : Except Unit (List IemEntry)
  metOfficeExtract : Except Unit (Option ℚ)
  wuExtract : Except Unit (Option ℚ)
  fetchedAt : String

/-! ## Provider adapter tasks of `server.js` (lines 162–343)

Each function returns the list of sources its task pushes: `[]` both when
the fetch fails (the task's `.catch`) and when the payload carries no
usable value. -/

/-- Task 1, METAR (lines 163–179). -/
def metarTask (env : ServerEnv) : List Source :=
  match env.metar with
  | .error _ => []
  | .ok l =>
    match l.head? with
    | none => []
    | some m =>
      match m.temp with
      | none => []
      | some t =>
        [{ id := "metar", name := "METAR Sensor", type := .live,
           temp_c := some t, temp_f := some (cToF t), time := m.reportTime }]

/-- Task 2, NWS observation (lines 181–200); only registered when
`cfg.nwsStation` is set.  Note `temp_c` is the raw value rounded to one
decimal while `temp_f` is converted from the raw value. -/
def nwsObsTask (cfg : StationConfig) (env : ServerEnv) : List Source :=
  match cfg.nwsStation with
  | none => []
  | some _ =>
    match env.nwsObs with
    | .error _ => []
    | .ok none => []
    | .ok (some p) =>
      match p.temperatureValue with
      | none => []
      | some v =>
        [{ id := "nws_obs", name := "NWS Observation", type := .live,
           temp_c := some (round10 v), temp_f := some (cToF v), time := p.timestamp }]

/-- Task 3, NWS grid forecast (lines 202–227); only when `cfg.nwsGrid`. -/
def nwsForecastTask (cfg : StationConfig) (env : ServerEnv) : List Source :=
  match cfg.nwsGrid with
  | none => []
  | some _ =>
    match env.nwsForecast with
    | .error _ => []
    | .ok none => []
    | .ok (some periods) =>
      let dayPeriods := (periods.filter (·.isDaytime)).take 3
      let fcs := dayPeriods.map fun p =>
        ForecastEntry.mk (some p.name) (some p.temperature) (some (fToC p.temperature))
          p.startTime p.shortForecast
      [{ id := "nws_forecast", name := "NWS Forecast", type := .forecast,
         forecasts := some fcs }]

/-- Task 4, Open-Meteo multi-model (lines 229–257).  One `model` source per
configured model whose series is present; `dailyMax` maps each day of
`daily.time` to the pair built from the series value at the same index.
(The registry always carries a label for each of its own models; the
lookup default is never exercised from `STATIONS`.) -/
def openMeteoTask (cfg : StationConfig) (env : ServerEnv) : List Source :=
  match env.openMeteo with
  | .error _ => []
  | .ok none => []
  | .ok (some daily) =>
    match daily.time with
    | none => []
    | some days =>
      cfg.openMeteoModels.flatMap fun model =>
        match daily.series.lookup ("temperature_2m_max_" ++ model) with
        | none => []
        | some arr =>
          let label := (cfg.modelLabels.lookup model).getD ""
          let dailyMax := days.enum.map fun p =>
            let tc := (arr.get? p.1).join
            (p.2, TempPair.mk tc (tc.map cToF))
          [{ id := "model_" ++ jsToLower label, name := label, type := .model,
             days := some days, dailyMax := some dailyMax }]

/-- Task 5, IEM daily summary (lines 259–282); only when `cfg.iemNetwork`.
The JS guard `if (entry?.max_tmpf)` is a truthiness test, so a recorded
max of exactly `0` is also skipped. -/
def iemTask (cfg : StationConfig) (env : ServerEnv) : List Source :=
  match cfg.iemNetwork with
  | none => []
  | some _ =>
    match env.iem with
    | .error _ => []
    | .ok l =>
      match l.head? with
      | none => []
      | some entry =>
        match entry.max_tmpf with
        | none => []
        | some v =>
          if v = 0 then []
          else
            [{ id := "iem", name := "IEM Recorded Max", type := .recorded,
               temp_f := some v, temp_c := some (fToC v), date := entry.date }]

/-- Task 6, Met Office page scrape (lines 284–311); only when
`cfg.metOfficeUrl`. -/
def metOfficeTask (cfg : StationConfig) (env : ServerEnv) : List Source :=
  match cfg.metOfficeUrl with
  | none => []
  | some _ =>
    match env.metOfficeExtract with
    | .error _ => []
    | .ok none => []
    | .ok (some maxC) =>
      [{ id := "metoffice_scrape", name := "Met Office (scrape)", type := .forecast,
         forecasts := some [ForecastEntry.mk (some "Today") (some (cToF maxC)) (some maxC)
           none (some "Scraped")] }]

/-- Task 7, Weather Underground page scrape (lines 313–343); only when
`cfg.wuUrl`. -/
def wuTask (cfg : StationConfig) (env : ServerEnv) : List Source :=
  match cfg.wuUrl with
  | none => []
  | some _ =>
    match env.wuExtract with
    | .error _ => []
    | .ok none => []
    | .ok (some maxRaw) =>
      let tc := if cfg.wuUnit = some .F then fToC maxRaw else maxRaw
      let tf := if cfg.wuUnit = some .F then maxRaw else cToF maxRaw
      [{ id := "wu_scrape", name := "Weather Underground (scrape)", type := .forecast,
         forecasts := some [ForecastEntry.mk (some "Today") (some tf) (some tc)
           none (some "Scraped")] }]

/-- The per-adapter source contributions, in task registration order. -/
def adapterSourceLists (cfg : StationConfig) (env : ServerEnv) : List (List Source) :=
  [metarTask env, nwsObsTask cfg env, nwsForecastTask cfg env, openMeteoTask cfg env,
   iemTask cfg env, metOfficeTask cfg env, wuTask cfg env]

/-- Errors that can cross the route boundary. `unknownCity` is the 400
response; `exception` models an uncaught throw inside the handler. -/
inductive RouteError
  | unknownCity
  | exception
deriving DecidableEq, Repr

/-- The JSON body of a successful `/api/all/:city` response (`server.js`
lines 347–355). -/
structure Report where
  city : String
  station : String
  name : String
  displayName : String
  unit : TempUnit
  sources : List Source
  fetchedAt : String
deriving DecidableEq, Repr

/-- The `/api/all/:city` route handler of `server.js` (lines 154–356):
lowercase the city key, reject unknown cities with the 400 error, otherwise
run every registered task (all of whose failures are absorbed) and respond
with the collected sources.  The concurrent tasks push into one shared
array; completion order is not semantically fixed, and the registration
order used here is one linearization of it. -/
def handleAll (cityParam : String) (env : ServerEnv) : Except RouteError Report :=
  match STATIONS.lookup (jsToLower cityParam) with
  | none => .error .unknownCity
  | some cfg =>
    .ok { city := jsToLower cityParam, station := cfg.icao, name := cfg.name,
          displayName := cfg.displayName, unit := cfg.unit,
          sources := (adapterSourceLists cfg env).flatten, fetchedAt := env.fetchedAt }

/-! ## Report assembler of `app.js` (lines 29–68, 159–255) -/

/-- `getPrimaryTemp` (`app.js` lines 29–49).  The JS guards are truthiness
tests on the `dailyMax`/`days`/`forecasts` fields; a source that fails them
falls through to the live/recorded branch. -/
def getPrimaryTemp (s : Source) (unit : TempUnit) (dayIndex : ℕ) : Option ℚ :=
  if s.type = .model ∧ s.dailyMax.isSome ∧ s.days.isSome then
    (((s.days.getD []).get? dayIndex).bind fun dayKey =>
      (s.dailyMax.getD []).lookup dayKey).bind fun entry =>
        if unit = .F then entry.temp_f else entry.temp_c
  else if s.type = .forecast ∧ s.forecasts.isSome then
    ((s.forecasts.getD []).get? dayIndex).bind fun fc =>
      if unit = .F then fc.temp_f else fc.temp_c
  else if dayIndex ≠ 0 then none
  else if unit = .F then s.temp_f else s.temp_c

/-- `getSecondaryTemp` (`app.js` lines 51–68): the mirror of
`getPrimaryTemp` with the units swapped. -/
def getSecondaryTemp (s : Source) (unit : TempUnit) (dayIndex : ℕ) : Option ℚ :=
  if s.type = .model ∧ s.dailyMax.isSome ∧ s.days.isSome then
    (((s.days.getD []).get? dayIndex).bind fun dayKey =>
      (s.dailyMax.getD []).lookup dayKey).bind fun entry =>
        if unit = .F then entry.temp_c else entry.temp_f
  else if s.type = .forecast ∧ s.forecasts.isSome then
    ((s.forecasts.getD []).get? dayIndex).bind fun fc =>
      if unit = .F then fc.temp_c else fc.temp_f
  else if dayIndex ≠ 0 then none
  else if unit = .F then s.temp_c else s.temp_f

/-- The display ordering of `createCityCard` (`app.js` lines 167–172):
live, recorded, forecast, model — sources of any other kind are dropped. -/
def orderedSources (sources : List Source) : List Source :=
  sources.filter (fun s => s.type == SourceKind.live) ++
  sources.filter (fun s => s.type == SourceKind.recorded) ++
  sources.filter (fun s => s.type == SourceKind.forecast) ++
  sources.filter (fun s => s.type == SourceKind.model)

/-- The `temps` array collected by `createCityCard` (lines 174–179): the
non-null primary temperatures of the ordered sources. -/
def tempsOf (sources : List Source) (unit : TempUnit) (dayIndex : ℕ) : List ℚ :=
  (orderedSources sources).filterMap fun s => getPrimaryTemp s unit dayIndex

/-- The displayed average (`app.js` lines 202–204): arithmetic mean of
`temps`, or `null` when `temps` is empty. -/
def avgOf (sources : List Source) (unit : TempUnit) (dayIndex : ℕ) : Option ℚ :=
  let temps := tempsOf sources unit dayIndex
  if temps.length > 0 then some (temps.sum / temps.length) else none

/-- `Math.max(...)` over a JS array spread (none for the empty array). -/
def listMax : List ℚ → Option ℚ
  | [] => none
  | a :: t => some (t.foldl max a)

/-- `Math.min(...)` over a JS array spread. -/
def listMin : List ℚ → Option ℚ
  | [] => none
  | a :: t => some (t.foldl min a)

/-- The spread CSS class of `app.js` line 213. -/
inductive SpreadClass
  | tight
  | medium
  | wide
deriving DecidableEq, Repr

/-- `spread <= 1.5 ? 'tight' : spread <= 3 ? 'medium' : 'wide'`. -/
def classifySpread (s : ℚ) : SpreadClass :=
  if s ≤ 3/2 then .tight else if s ≤ 3 then .medium else .wide

/-- The spread block of `createCityCard` (lines 210–220): emitted only when
at least two temps were collected; value `max − min`, plus its class. -/
def spreadOf (temps : List ℚ) : Option (ℚ × SpreadClass) :=
  if 2 ≤ temps.length then
    match listMax temps, listMin temps with
    | some mx, some mn => some (mx - mn, classifySpread (mx - mn))
    | _, _ => none
  else none

/-! ## Station registry of the cached-scrape server snapshot (v1) -/

/-- London's four scrape targets (v1). -/
def londonSitesV1 : List ScrapeSite :=
  [⟨"metoffice", "Met Office", "https://www.metoffice.gov.uk/weather/forecast/gcpvj0v07"⟩,
   ⟨"wunderground", "Weather Underground", "https://www.wunderground.com/weather/gb/london"⟩,
   ⟨"bbc", "BBC Weather", "https://www.bbc.com/weather/2643743"⟩,
   ⟨"accu", "AccuWeather", "https://www.accuweather.com/en/gb/london/ec4a-2/weather-forecast/328328"⟩]

/-- Paris's single scrape target (v1). -/
def parisSiteV1 : ScrapeSite :=
  ⟨"meteo", "Météo-France", "https://meteofrance.com/previsions-meteo-france/paris/75000"⟩

def londonCfgV1 : StationConfig where
  icao := "EGLL"
  name := "London City Airport"
  displayName := "LONDON"
  lat := 514775/10000
  lon := -4614/10000
  timezone := "Europe/London"
  unit := .C
  openMeteoModels := ["ecmwf_ifs025", "gfs_seamless", "meteofrance_arome_france_hd", "ukmo_seamless"]
  modelLabels := [("ecmwf_ifs025", "ECMWF"), ("gfs_seamless", "GFS"),
    ("meteofrance_arome_france_hd", "AROME"), ("ukmo_seamless", "UKMO")]
  nwsStation := none
  nwsGrid := none
  iemNetwork := none
  scrapperUrls := some londonSitesV1

def parisCfgV1 : StationConfig where
  icao := "LFPG"
  name := "Paris Charles de Gaulle"
  displayName := "PARIS"
  lat := 490097/10000
  lon := 25479/10000
  timezone := "Europe/Paris"
  unit := .C
  openMeteoModels := ["ecmwf_ifs025", "gfs_seamless", "meteofrance_arome_france_hd", "ukmo_seamless"]
  modelLabels := [("ecmwf_ifs025", "ECMWF"), ("gfs_seamless", "GFS"),
    ("meteofrance_arome_france_hd", "AROME"), ("ukmo_seamless", "UKMO")]
  nwsStation := none
  nwsGrid := none
  iemNetwork := none
  scrapperUrls := some [parisSiteV1]

def dallasCfgV1 : StationConfig where
  icao := "KDAL"
  name := "Dallas Love Field"
  displayName := "DALLAS"
  lat := 328471/10000
  lon := -968518/10000
  timezone := "America/Chicago"
  unit := .F
  openMeteoModels := ["ecmwf_ifs025", "gfs_seamless"]
  modelLabels := [("ecmwf_ifs025", "ECMWF"), ("gfs_seamless", "GFS")]
  nwsStation := some "KDAL"
  nwsGrid := some ⟨"FWD", 85, 106⟩
  iemNetwork := some "TX_ASOS"
  scrapperUrls := some [⟨"weather_chan", "Weather Channel", "https://weather.com/weather/today/l/Dallas+TX"⟩]

def miamiCfgV1 : StationConfig where
  icao := "KMIA"
  name := "Miami Intl Airport"
  displayName := "MIAMI"
  lat := 257932/10000
  lon := -802906/10000
  timezone := "America/New_York"
  unit := .F
  openMeteoModels := ["ecmwf_ifs025", "gfs_seamless"]
  modelLabels := [("ecmwf_ifs025", "ECMWF"), ("gfs_seamless", "GFS")]
  nwsStation := some "KMIA"
  nwsGrid := some ⟨"MFL", 76, 52⟩
  iemNetwork := some "FL_ASOS"
  scrapperUrls := some [⟨"weather_chan", "Weather Channel", "https://weather.com/weather/today/l/Miami+FL"⟩]

/-- The `STATIONS` object of the cached-scrape snapshot. -/
def STATIONS_V1 : List (String × StationConfig) :=
  [("london", londonCfgV1), ("paris", parisCfgV1), ("dallas", dallasCfgV1), ("miami", miamiCfgV1)]

/-! ## The scrape cache (`CACHE`, `scrapeForecastForDay`, v1 lines 71–120) -/

/-- One `CACHE` entry: population timestamp (ms) and the stored sources. -/
structure CacheEntry where
  ts : ℤ
  data : List Source
deriving DecidableEq, Repr

/-- The `CACHE` object: a key → entry association (last write wins). -/
abbrev Cache := List (String × CacheEntry)

/-- `CACHE_TTL = 5 * 60 * 1000` (v1 line 72). -/
def CACHE_TTL : ℤ := 5 * 60 * 1000

/-- `CACHE[cacheKey] = { ts, data }`: overwrite the key's binding. -/
def insertCache (c : Cache) (k : String) (e : CacheEntry) : Cache :=
  (k, e) :: c.filter fun p => !(p.1 == k)

/-- The v1 cache-hit test (lines 83–85): the stored list if a binding
exists whose age `now − ts` is under the TTL, else `none`. -/
def validCacheLookup (cache : Cache) (key : String) (now : ℤ) : Option (List Source) :=
  match cache.lookup key with
  | some e => if now - e.ts < CACHE_TTL then some e.data else none
  | none => none

/-- The ISO date (day-granular) of `now + dayOffset`; calendar days are
modelled as integers. -/
def dateStrOf (today : ℤ) (d : ℤ) : String := toString (today + d)

/-- `` `${cfg.displayName}_${dayOffset}_${dateStr}` `` (v1 line 81). -/
def cacheKeyOf (cfg : StationConfig) (d : ℤ) (dateStr : String) : String :=
  cfg.displayName ++ "_" ++ toString d ++ "_" ++ dateStr

/-- Externally observable actions of one scrape pass: the fixed
rate-limit delay and the outbound search query for one target. -/
inductive ScrapeEvent
  | delayEv (ms : ℕ)
  | queryEv (siteId : String)
deriving DecidableEq, Repr

/-- Lines 108–109: unit auto-correction of an extracted integer. -/
def autoUnitCorrect (unit : TempUnit) (v : ℕ) : ℚ :=
  if unit = .C ∧ 40 < v then fToC v
  else if unit = .F ∧ v < 32 then cToF v
  else v

/-- Lines 100–113: the sources contributed by one scrape target, given the
outcome of its search query.  `.error` = the fetch rejected (caught at line
115, contributing nothing); `.ok none` = no result text matched any of the
temperature patterns; `.ok (some n)` = the first match's integer. -/
def scrapeSiteSources (cfg : StationConfig) (d : ℤ) (site : ScrapeSite)
    (outcome : Except Unit (Option ℕ)) : List Source :=
  match outcome with
  | .error _ => []
  | .ok none => []
  | .ok (some n) =>
    let val := autoUnitCorrect cfg.unit n
    [{ id := "scraped_" ++ site.id ++ "_d" ++ toString d, name := site.name, type := .scraped,
       temp_c := some (if cfg.unit = .C then val else fToC val),
       temp_f := some (if cfg.unit = .F then val else cToF val),
       url := some site.url }]

/-- The sequential scrape loop (v1 lines 88–116) over targets `sites`,
with `env i` the outcome of the `i`-th target's query (offset `i0`).
Per iteration the code first awaits the fixed 1500 ms delay and then
issues the query, so every target — including the first — is preceded by
one delay event. -/
def scrapePassAux (cfg : StationConfig) (d : ℤ) (env : ℕ → Except Unit (Option ℕ)) :
    List ScrapeSite → ℕ → List Source × List ScrapeEvent
  | [], _ => ([], [])
  | site :: rest, i =>
    let tail := scrapePassAux cfg d env rest (i + 1)
    (scrapeSiteSources cfg d site (env i) ++ tail.1,
     [.delayEv 1500, .queryEv site.id] ++ tail.2)

/-- One full scrape pass over the configured targets. -/
def scrapePass (cfg : StationConfig) (d : ℤ) (sites : List ScrapeSite)
    (env : ℕ → Except Unit (Option ℕ)) : List Source × List ScrapeEvent :=
  scrapePassAux cfg d env sites 0

/-- `scrapeForecastForDay` (v1 lines 74–120).  `d?` is the parsed
`dayOffset` (`none` = `NaN`); when it is `NaN` and scrape targets exist,
`targetDate` is an Invalid Date and `toISOString()` throws a `RangeError`
(modelled as `.error ()`). Returns the resolved sources, the cache after
the call, and the emitted scrape events (empty on a cache hit). -/
def scrapeForecastForDay (cfg : StationConfig) (d? : Option ℤ) (today now : ℤ)
    (env : ℕ → Except Unit (Option ℕ)) (cache : Cache) :
    Except Unit (List Source × Cache × List ScrapeEvent) :=
  match cfg.scrapperUrls with
  | none => .ok ([], cache, [])
  | some sites =>
    match d? with
    | none => .error ()
    | some d =>
      let key := cacheKeyOf cfg d (dateStrOf today d)
      match validCacheLookup cache key now with
      | some data => .ok (data, cache, [])
      | none =>
        let pass := scrapePass cfg d sites env
        .ok (pass.1, insertCache cache key ⟨now, pass.1⟩, pass.2)

/-- Interleaved execution of two resolutions A and B of the same
`(city, dayOffset, date)` key, both initiated before either population
completes.  On the single-threaded event loop each handler runs
synchronously from its cache check to its first `await` (the rate-limit
delay), so both checks read the same pre-population cache; A's population
then completes and stores, followed by B's.  Returns A's sources, B's
sources, the final cache, and the number of scrape sequences executed. -/
def twoConcurrentResolves (cfg : StationConfig) (d : ℤ) (today : ℤ)
    (envA envB : ℕ → Except Unit (Option ℕ)) (tA tB : ℤ) (cache0 : Cache) :
    List Source × List Source × Cache × ℕ :=
  match cfg.scrapperUrls with
  | none => ([], [], cache0, 0)
  | some sites =>
    let key := cacheKeyOf cfg d (dateStrOf today d)
    match validCacheLookup cache0 key tA, validCacheLookup cache0 key tB with
    | some a, some b => (a, b, cache0, 0)
    | some a, none =>
      let pb := scrapePass cfg d sites envB
      (a, pb.1, insertCache cache0 key ⟨tB, pb.1⟩, 1)
    | none, some b =>
      let pa := scrapePass cfg d sites envA
      (pa.1, b, insertCache cache0 key ⟨tA, pa.1⟩, 1)
    | none, none =>
      let pa := scrapePass cfg d sites envA
      let pb := scrapePass cfg d sites envB
      (pa.1, pb.1, insertCache (insertCache cache0 key ⟨tA, pa.1⟩) key ⟨tB, pb.1⟩, 2)

/-! ## The v1 `/api/all/:city` route (lines 122–148) -/

/-- Leading-digit accumulator for `parseInt`. -/
def parseDigitsAcc : List Char → ℕ → ℕ
  | [], acc => acc
  | c :: cs, acc => if c.isDigit then parseDigitsAcc cs (acc * 10 + (c.toNat - 48)) else acc

/-- Skip JS leading whitespace. -/
def skipWs : List Char → List Char
  | [] => []
  | c :: cs => if c = ' ' ∨ c = '\t' ∨ c = '\n' ∨ c = '\r' then skipWs cs else c :: cs

/-- JS `parseInt(s)` in base 10: skip whitespace, optional sign, then the
leading digit run; `none` models `NaN` (no leading digit). -/
def parseJsInt (s : String) : Option ℤ :=
  match skipWs s.data with
  | '-' :: c :: cs => if c.isDigit then some (-(parseDigitsAcc (c :: cs) 0 : ℤ)) else none
  | '+' :: c :: cs => if c.isDigit then some ((parseDigitsAcc (c :: cs) 0 : ℤ)) else none
  | c :: cs => if c.isDigit then some ((parseDigitsAcc (c :: cs) 0 : ℤ)) else none
  | [] => none

/-- `parseInt(req.query.day || '0')` (v1 line 124): an absent or empty
`day` parameter falls back to `'0'`. -/
def parseDayParam (dayRaw : Option String) : Option ℤ :=
  parseJsInt (match dayRaw with | none => "0" | some s => if s == "" then "0" else s)

/-- `data.daily[key][dayOffset]`: JS indexing with an arbitrary (possibly
`NaN` or out-of-range) index yields `undefined`; a present slot may still
hold JSON `null`. -/
def jsIndex (arr : List (Option ℚ)) (d? : Option ℤ) : Option ℚ :=
  match d? with
  | none => none
  | some d => if d < 0 then none else (arr.get? d.toNat).join

/-- Environment of the v1 route: the Open-Meteo fetch outcome and the
per-target scrape query outcomes. -/
structure EnvV1 where
  openMeteo : Except Unit (Option OmDaily)
  scrape : ℕ → Except Unit (Option ℕ)
  fetchedAt : String

/-- The v1 Open-Meteo task (lines 131–141): one flat `model` source per
configured model with a present series, holding the single value at index
`dayOffset` (absent for out-of-range or `NaN` offsets). -/
def openMeteoTaskV1 (cfg : StationConfig) (d? : Option ℤ) (env : EnvV1) : List Source :=
  match env.openMeteo with
  | .error _ => []
  | .ok none => []
  | .ok (some daily) =>
    cfg.openMeteoModels.flatMap fun model =>
      match daily.series.lookup ("temperature_2m_max_" ++ model) with
      | none => []
      | some arr =>
        let label := (cfg.modelLabels.lookup model).getD ""
        let val := jsIndex arr d?
        [{ id := "model_" ++ label, name := label, type := .model,
           temp_c := val, temp_f := val.map cToF }]

/-- The JSON body of a successful v1 `/api/all/:city` response (line 147):
unlike `server.js` it has no `name` field. -/
structure ReportV1 where
  city : String
  station : String
  displayName : String
  unit : TempUnit
  sources : List Source
  fetchedAt : String
deriving DecidableEq, Repr

/-- The v1 `/api/all/:city` handler (lines 122–148): parse the `day` query
parameter with no validation, reject unknown cities, run the Open-Meteo
task (failures absorbed), then resolve scraped sources through the cache.
A throw escaping the `async` handler (the `NaN`-date `RangeError`) is an
uncaught rejection: no JSON response is produced (`.error .exception`). -/
def handleAllV1 (cityParam : String) (dayRaw : Option String) (env : EnvV1)
    (today now : ℤ) (cache : Cache) : Except RouteError (ReportV1 × Cache) :=
  match STATIONS_V1.lookup (jsToLower cityParam) with
  | none => .error .unknownCity
  | some cfg =>
    match scrapeForecastForDay cfg (parseDayParam dayRaw) today now env.scrape cache with
    | .error _ => .error .exception
    | .ok (scraped, cache', _) =>
      .ok ({ city := jsToLower cityParam, station := cfg.icao, displayName := cfg.displayName,
             unit := cfg.unit,
             sources := openMeteoTaskV1 cfg (parseDayParam dayRaw) env ++ scraped,
             fetchedAt := env.fetchedAt }, cache')

/-! ## Claim-side (spec-worded) definitions -/

/-- The claimed coupling of a temperature pair: whenever both fields are
present, `temp_f = round10(temp_c * 9/5 + 32)` or the inverse. -/
def pairOkB (tc tf : Option ℚ) : Bool :=
  match tc, tf with
  | some c, some f => (f == cToF c) || (c == fToC f)
  | _, _ => true

/-- The claimed invariant over every temperature pair a source carries:
its top-level pair, each `forecasts` entry, and each `dailyMax` entry. -/
def sourcePairsOkB (s : Source) : Bool :=
  pairOkB s.temp_c s.temp_f &&
  ((s.forecasts.getD []).all fun e => pairOkB e.temp_c e.temp_f) &&
  ((s.dailyMax.getD []).all fun p => pairOkB p.2.temp_c p.2.temp_f)

/-- Modelled from the claim's words (C9): the arithmetic mean over *all*
sources of the list whose primary value for the day is defined. -/
def specAverage (sources : List Source) (unit : TempUnit) (dayIndex : ℕ) : Option ℚ :=
  let vals := sources.filterMap fun s => getPrimaryTemp s unit dayIndex
  if vals.length > 0 then some (vals.sum / vals.length) else none

/-- Number of delay events in a scrape trace. -/
def delayCount (evs : List ScrapeEvent) : ℕ :=
  (evs.filter fun e => match e with | .delayEv _ => true | _ => false).length

/-- The outbound queries of a scrape trace, in order. -/
def queryIds (evs : List ScrapeEvent) : List String :=
  evs.filterMap fun e => match e with | .queryEv i => some i | _ => none

/-- Modelled from the claim's words (C6): one query per target in order,
with the fixed delay only *between* consecutive targets — `n − 1` delays,
none before the first query. -/
def claimedScrapeTrace (sites : List ScrapeSite) : List ScrapeEvent :=
  match sites with
  | [] => []
  | s :: rest => .queryEv s.id :: rest.flatMap fun t => [.delayEv 1500, .queryEv t.id]

/-! ## Witness fixtures -/

/-- An environment in which every upstream call fails. -/
def envFail : ServerEnv where
  metar := .error ()
  nwsObs := .error ()
  nwsForecast := .error ()
  openMeteo := .error ()
  iem := .error ()
  metOfficeExtract := .error ()
  wuExtract := .error ()
  fetchedAt := "2026-01-01T00:00:00.000Z"

/-- Only the NWS observation succeeds, reporting the raw value `10.04 °C`
(a value with more than one decimal of precision). -/
def envPair : ServerEnv where
  metar := .error ()
  nwsObs := .ok (some ⟨some (251/25), none⟩)
  nwsForecast := .error ()
  openMeteo := .error ()
  iem := .error ()
  metOfficeExtract := .error ()
  wuExtract := .error ()
  fetchedAt := "2026-01-01T00:00:00.000Z"

/-- Only METAR succeeds, reading `15 °C`. -/
def envOne : ServerEnv where
  metar := .ok [⟨some 15, none⟩]
  nwsObs := .error ()
  nwsForecast := .error ()
  openMeteo := .error ()
  iem := .error ()
  metOfficeExtract := .error ()
  wuExtract := .error ()
  fetchedAt := "2026-01-01T00:00:00.000Z"

/-- The source the NWS observation task produces from `envPair`:
`temp_c = round10(10.04) = 10.0`, `temp_f = cToF(10.04) = 50.1`. -/
def nwsObsBad : Source :=
  { id := "nws_obs", name := "NWS Observation", type := .live,
    temp_c := some (round10 (251/25)), temp_f := some (cToF (251/25)), time := none }

/-- The source the METAR task produces from `envOne`. -/
def metarSrc : Source :=
  { id := "metar", name := "METAR Sensor", type := .live,
    temp_c := some 15, temp_f := some (cToF 15), time := none }

/-- Two live sources at `12 °C` and `10 °C`. -/
def liveA : Source :=
  { id := "a", name := "A", type := .live, temp_c := some 12, temp_f := some (cToF 12) }

def liveB : Source :=
  { id := "b", name := "B", type := .live, temp_c := some 10, temp_f := some (cToF 10) }

/-- A live source carrying no temperature at all. -/
def liveNull : Source :=
  { id := "n", name := "N", type := .live }

/-- A `scraped`-kind source with a defined day-0 temperature, as the v1
scrape cache produces them. -/
def scrapedS : Source :=
  { id := "scraped_metoffice_d0", name := "Met Office", type := .scraped,
    temp_c := some 20, temp_f := some 68, url := some "https://example.invalid" }

/-- Per-target scrape outcome: every query fails. -/
def envScrapeErr : ℕ → Except Unit (Option ℕ) := fun _ => .error ()

/-- Per-target scrape outcome: every query returns a result matching `25`. -/
def envScrape25 : ℕ → Except Unit (Option ℕ) := fun _ => .ok (some 25)

/-- Per-target scrape outcome: queries succeed but nothing matches. -/
def envScrapeNone : ℕ → Except Unit (Option ℕ) := fun _ => .ok none

/-- A cache holding one London day-0 entry populated at time `0` with an
empty source list. -/
def cacheW : Cache := [("LONDON_0_0", ⟨0, []⟩)]

/-- A v1 route environment in which every upstream call fails. -/
def envV1Fail : EnvV1 where
  openMeteo := .error ()
  scrape := envScrapeErr
  fetchedAt := "2026-01-01T00:00:00.000Z"

/-! ## Theorems -/

theorem jsRound_le (x : ℚ) : (jsRound x : ℚ) ≤ x + 1/2 :=
  Int.floor_le _

theorem lt_jsRound (x : ℚ) : x - 1/2 < (jsRound x : ℚ) := by
  have h := Int.lt_floor_add_one (x + 1/2)
  unfold jsRound
  linarith

/-- One-decimal rounding moves a value by at most `1/20`. -/
theorem round10_err (x : ℚ) : |round10 x - x| ≤ 1/20 := by
  have h1 := jsRound_le (x * 10)
  have h2 := lt_jsRound (x * 10)
  rw [abs_le]
  unfold round10
  constructor <;> [nlinarith; nlinarith]

/-- C7 (Celsius direction, which holds as claimed): converting Celsius to
Fahrenheit and back moves the value by at most `0.1` (the exact bound is
`7/90 < 1/10`). -/
theorem fToC_cToF_roundtrip (c : ℚ) : |fToC (cToF c) - c| ≤ 1/10 := by
  have h1 := round10_err (c * 9 / 5 + 32)
  have h2 := round10_err ((cToF c - 32) * 5 / 9)
  rw [abs_le] at h1 h2 ⊢
  unfold fToC
  unfold cToF at h2 ⊢
  constructor <;> [nlinarith; nlinarith]

/-- C7, counterexample: at the Fahrenheit input `f = 44.879` the
round-trip `cToF (fToC f)` lands on `45.0`, an error of `0.121 > 0.1`,
refuting the claimed symmetric `0.1` bound for Fahrenheit inputs. -/
theorem conversion_roundtrip_cex :
    ¬ |cToF (fToC (44879/1000)) - 44879/1000| ≤ 1/10 := by
  have h : cToF (fToC (44879/1000)) - 44879/1000 = 121/1000 := by
    unfold cToF fToC round10 jsRound
    norm_num
  rw [h, abs_of_pos (by norm_num : (0:ℚ) < 121/1000)]
  norm_num

/-- C7, amended: the Celsius-input round-trip is within `0.1` as claimed,
while the Fahrenheit-input round-trip only satisfies the weaker bound
`|cToF (fToC f) - f| ≤ 0.14` (`0.121` actually occurs, see the
counterexample). -/
theorem conversion_roundtrip_amended :
    (∀ c : ℚ, |fToC (cToF c) - c| ≤ 1/10) ∧
    (∀ f : ℚ, |cToF (fToC f) - f| ≤ 14/100) := by
  refine ⟨fToC_cToF_roundtrip, fun f => ?_⟩
  have h1 := round10_err ((f - 32) * 5 / 9)
  have h2 := round10_err (fToC f * 9 / 5 + 32)
  rw [abs_le] at h1 h2 ⊢
  unfold cToF
  unfold fToC at h2 ⊢
  constructor <;> [nlinarith; nlinarith]

/-- C1 (confirmed): for any request whose (lowercased) city key is in the
station registry, the route always answers with a report, whatever subset
of the upstream calls failed; the returned `sources` are exactly the
concatenation of the contributions of the adapters that succeeded (failed
adapters contribute the empty list), and in the worst case — every adapter
failing or yielding nothing — the report carries an empty source list, for
which the assembler shows no average and no spread. -/
theorem aggregate_partial_failure (city : String) (env : ServerEnv) (cfg : StationConfig)
    (h : STATIONS.lookup (jsToLower city) = some cfg) :
    ∃ r, handleAll city env = .ok r ∧
      r.sources = (adapterSourceLists cfg env).flatten ∧
      ((∀ l ∈ adapterSourceLists cfg env, l = []) →
        r.sources = [] ∧ ∀ u day, avgOf r.sources u day = none ∧
          spreadOf (tempsOf r.sources u day) = none) := by
  have hh : handleAll city env =
      .ok ⟨jsToLower city, cfg.icao, cfg.name, cfg.displayName, cfg.unit,
        (adapterSourceLists cfg env).flatten, env.fetchedAt⟩ := by
    unfold handleAll
    rw [h]
  refine ⟨_, hh, rfl, fun hall => ?_⟩
  have hs : (adapterSourceLists cfg env).flatten = [] :=
    List.flatten_eq_nil_iff.mpr hall
  refine ⟨hs, fun u day => ?_⟩
  rw [hs]
  exact ⟨rfl, rfl⟩

/-- C1 witness: with every upstream call failing, the London request still
yields a report, with an empty source list. -/
theorem aggregate_partial_failure_witness :
    ∃ r, handleAll "london" envFail = .ok r ∧ r.sources = [] ∧
      ∀ u day, avgOf r.sources u day = none := by
  obtain ⟨r, h1, h2, h3⟩ := aggregate_partial_failure "london" envFail londonCfg (by rfl)
  obtain ⟨h4, h5⟩ := h3 (by decide)
  exact ⟨r, h1, h4, fun u day => (h5 u day).1⟩

/-- C2 (confirmed): the route rejects with the unknown-city error exactly
when the lowercased city key is not in the registry; for a registered key
it always answers with a report, whatever the environment; and the
unknown-city rejection is the only error that can cross the route
boundary. -/
theorem aggregate_unknown_city_only (city : String) (env : ServerEnv) :
    (handleAll city env = .error .unknownCity ↔ STATIONS.lookup (jsToLower city) = none) ∧
    (∀ cfg, STATIONS.lookup (jsToLower city) = some cfg → ∃ r, handleAll city env = .ok r) ∧
    (∀ e, handleAll city env = .error e → e = .unknownCity) := by
  cases hl : STATIONS.lookup (jsToLower city) with
  | none =>
    have he : handleAll city env = .error .unknownCity := by
      unfold handleAll
      rw [hl]
    refine ⟨⟨fun _ => rfl, fun _ => he⟩, fun cfg hc => ?_, fun e h2 => ?_⟩
    · cases hc
    · rw [he] at h2
      cases h2
      rfl
  | some cfg =>
    have he : handleAll city env =
        .ok ⟨jsToLower city, cfg.icao, cfg.name, cfg.displayName, cfg.unit,
          (adapterSourceLists cfg env).flatten, env.fetchedAt⟩ := by
      unfold handleAll
      rw [hl]
    refine ⟨⟨fun h => ?_, fun h => ?_⟩, fun cfg' hc => ⟨_, he⟩, fun e h2 => ?_⟩
    · rw [he] at h
      cases h
    · cases h
    · rw [he] at h2
      cases h2

/-- C2 witness: `atlantis` is rejected with the unknown-city error while
`london` (even with every provider failing) yields a report. -/
theorem aggregate_unknown_city_only_witness :
    handleAll "atlantis" envFail = .error .unknownCity ∧
    ∃ r, handleAll "london" envFail = .ok r := by
  constructor
  · exact (aggregate_unknown_city_only "atlantis" envFail).1.mpr (by rfl)
  · exact (aggregate_unknown_city_only "london" envFail).2.1 londonCfg (by rfl)

/-- A pair whose Fahrenheit side is converted from its Celsius side
satisfies the claimed coupling. -/
theorem pairOkB_conv_c (t : ℚ) : pairOkB (some t) (some (cToF t)) = true := by
  simp [pairOkB]

/-- A pair whose Celsius side is converted from its Fahrenheit side
satisfies the claimed coupling. -/
theorem pairOkB_conv_f (t : ℚ) : pairOkB (some (fToC t)) (some t) = true := by
  simp [pairOkB]

/-- Option-level version of `pairOkB_conv_c`, as built by the Open-Meteo
task. -/
theorem pairOkB_opt (tc : Option ℚ) : pairOkB tc (tc.map cToF) = true := by
  cases tc with
  | none => rfl
  | some c => exact pairOkB_conv_c c

theorem metarTask_pairsOk (env : ServerEnv) :
    ∀ s ∈ metarTask env, sourcePairsOkB s = true := by
  intro s hsl
  unfold metarTask at hsl
  repeat' split at hsl
  all_goals simp only [List.mem_singleton, List.not_mem_nil] at hsl
  subst hsl
  simp [sourcePairsOkB, pairOkB]

theorem nwsForecastTask_pairsOk (cfg : StationConfig) (env : ServerEnv) :
    ∀ s ∈ nwsForecastTask cfg env, sourcePairsOkB s = true := by
  intro s hsl
  unfold nwsForecastTask at hsl
  repeat' split at hsl
  all_goals simp only [List.mem_singleton, List.not_mem_nil] at hsl
  subst hsl
  simp only [sourcePairsOkB, Bool.and_eq_true, Option.getD_some, Option.getD_none,
    List.all_nil, List.all_map, List.all_eq_true, and_true, true_and]
  refine ⟨rfl, ?_⟩
  intro x hx
  obtain ⟨p, hp2, rfl⟩ := List.mem_map.mp hx
  exact pairOkB_conv_f _

theorem openMeteoTask_pairsOk (cfg : StationConfig) (env : ServerEnv) :
    ∀ s ∈ openMeteoTask cfg env, sourcePairsOkB s = true := by
  intro s hsl
  unfold openMeteoTask at hsl
  repeat' split at hsl
  all_goals first
    | exact absurd hsl (List.not_mem_nil s)
    | skip
  rw [List.mem_flatMap] at hsl
  obtain ⟨model, _, hm⟩ := hsl
  split at hm
  · cases hm
  · rw [List.mem_singleton] at hm
    subst hm
    simp only [sourcePairsOkB, Bool.and_eq_true, Option.getD_some, Option.getD_none,
      List.all_nil, List.all_map, List.all_eq_true, and_true, true_and]
    refine ⟨rfl, ?_⟩
    intro p hp
    obtain ⟨q, hq2, rfl⟩ := List.mem_map.mp hp
    exact pairOkB_opt _

theorem iemTask_pairsOk (cfg : StationConfig) (env : ServerEnv) :
    ∀ s ∈ iemTask cfg env, sourcePairsOkB s = true := by
  intro s hsl
  unfold iemTask at hsl
  repeat' split at hsl
  all_goals simp only [List.mem_singleton, List.not_mem_nil] at hsl
  subst hsl
  simp [sourcePairsOkB, pairOkB]

theorem metOfficeTask_pairsOk (cfg : StationConfig) (env : ServerEnv) :
    ∀ s ∈ metOfficeTask cfg env, sourcePairsOkB s = true := by
  intro s hsl
  unfold metOfficeTask at hsl
  repeat' split at hsl
  all_goals simp only [List.mem_singleton, List.not_mem_nil] at hsl
  subst hsl
  simp [sourcePairsOkB, pairOkB]

theorem wuTask_pairsOk (cfg : StationConfig) (env : ServerEnv) :
    ∀ s ∈ wuTask cfg env, sourcePairsOkB s = true := by
  intro s hsl
  unfold wuTask at hsl
  repeat' split at hsl
  all_goals simp only [List.mem_singleton, List.not_mem_nil] at hsl
  all_goals subst hsl
  all_goals simp [sourcePairsOkB, pairOkB]

theorem nwsObsTask_shape (cfg : StationConfig) (env : ServerEnv) :
    ∀ s ∈ nwsObsTask cfg env,
      s.id = "nws_obs" ∧ ∃ v, s.temp_c = some (round10 v) ∧ s.temp_f = some (cToF v) := by
  intro s hsl
  unfold nwsObsTask at hsl
  repeat' split at hsl
  all_goals simp only [List.mem_singleton, List.not_mem_nil] at hsl
  subst hsl
  exact ⟨rfl, ⟨_, rfl, rfl⟩⟩

/-- C5, counterexample: fed the raw NWS observation value `10.04 °C`, the
`nws_obs` task emits `temp_c = 10.0` (the raw value rounded) but
`temp_f = 50.1` (converted from the *raw* value).  Neither
`temp_f = cToF temp_c` (`cToF 10 = 50`) nor `temp_c = fToC temp_f`
(`fToC 50.1 = 10.1`) holds, refuting the claimed pair coupling. -/
theorem temp_pair_cex :
    nwsObsTask dallasCfg envPair = [nwsObsBad] ∧ sourcePairsOkB nwsObsBad = false := by
  refine ⟨rfl, ?_⟩
  have h1 : round10 (251/25) = 10 := by
    unfold round10 jsRound
    norm_num
  have h2 : cToF (251/25) = 501/10 := by
    unfold cToF round10 jsRound
    norm_num
  have h3 : cToF 10 = 50 := by
    unfold cToF round10 jsRound
    norm_num
  have h4 : fToC (501/10) = 101/10 := by
    unfold fToC round10 jsRound
    norm_num
  simp only [sourcePairsOkB, nwsObsBad, pairOkB, h1, h2, h3, h4, Option.getD_none,
    List.all_nil, Bool.and_true]
  rw [Bool.or_eq_false_iff, beq_eq_false_iff_ne, beq_eq_false_iff_ne]
  constructor <;> norm_num

/-- C5, amended: every source any `server.js` adapter produces satisfies
the claimed pair coupling (`temp_f` converted from `temp_c` or the
inverse, in every pair it carries), *except* those of the NWS observation
adapter, whose pair is `temp_c = round10 v`, `temp_f = cToF v` for the raw
upstream value `v` — which satisfies the claimed coupling only when `v`
already has at most one decimal (`round10 v = v`). -/
theorem temp_pair_invariant_amended (cfg : StationConfig) (env : ServerEnv) (s : Source)
    (hs : s ∈ (adapterSourceLists cfg env).flatten) :
    sourcePairsOkB s = true ∨
      (s.id = "nws_obs" ∧ ∃ v, s.temp_c = some (round10 v) ∧ s.temp_f = some (cToF v)) := by
  rw [List.mem_flatten] at hs
  obtain ⟨l, hl, hsl⟩ := hs
  simp only [adapterSourceLists, List.mem_cons, List.not_mem_nil, or_false] at hl
  rcases hl with rfl | rfl | rfl | rfl | rfl | rfl | rfl
  · exact .inl (metarTask_pairsOk env s hsl)
  · exact .inr (nwsObsTask_shape cfg env s hsl)
  · exact .inl (nwsForecastTask_pairsOk cfg env s hsl)
  · exact .inl (openMeteoTask_pairsOk cfg env s hsl)
  · exact .inl (iemTask_pairsOk cfg env s hsl)
  · exact .inl (metOfficeTask_pairsOk cfg env s hsl)
  · exact .inl (wuTask_pairsOk cfg env s hsl)

/-- C5 witness: the METAR source produced for London from a `15 °C`
reading is among the aggregation's sources and satisfies the (amended)
disjunction. -/
theorem temp_pair_invariant_amended_witness :
    sourcePairsOkB metarSrc = true ∨
      (metarSrc.id = "nws_obs" ∧
        ∃ v, metarSrc.temp_c = some (round10 v) ∧ metarSrc.temp_f = some (cToF v)) :=
  temp_pair_invariant_amended londonCfg envOne metarSrc (by
    rw [List.mem_flatten]
    refine ⟨metarTask envOne, by simp [adapterSourceLists], ?_⟩
    rw [show metarTask envOne = [metarSrc] from rfl]
    exact List.mem_singleton.mpr rfl)

/-- Behaviour of the spread block on an arbitrary collected `temps` list:
emitted iff at least two values; when emitted, exactly `max − min` with its
class; suppressed below two values. -/
theorem spreadOf_spec (t : List ℚ) :
    (spreadOf t ≠ none ↔ 2 ≤ t.length) ∧
    (∀ mx mn, listMax t = some mx → listMin t = some mn → 2 ≤ t.length →
      spreadOf t = some (mx - mn, classifySpread (mx - mn))) ∧
    (t.length ≤ 1 → spreadOf t = none) := by
  refine ⟨?_, ?_, ?_⟩
  · cases t with
    | nil => simp [spreadOf]
    | cons a l =>
      cases l with
      | nil => simp [spreadOf]
      | cons b l2 =>
        have h2 : 2 ≤ (a :: b :: l2).length := by
          simp [List.length_cons]
        simp [spreadOf, listMax, listMin, h2]
  · intro mx mn hmx hmn h2
    unfold spreadOf
    rw [if_pos h2, hmx, hmn]
  · intro h1
    unfold spreadOf
    rw [if_neg]
    omega

/-- C8 (confirmed): the spread block is emitted iff at least two non-null
primary temperatures were collected for the selected day; when emitted it
is exactly `max − min` over them together with its classification, and the
classification is `tight` at `1.5`, `medium` just above `1.5` and at `3`,
and `wide` just above `3`.  With zero or one collected values nothing is
emitted. -/
theorem spread_emission (sources : List Source) (unit : TempUnit) (day : ℕ) :
    (spreadOf (tempsOf sources unit day) ≠ none ↔ 2 ≤ (tempsOf sources unit day).length) ∧
    (∀ mx mn, listMax (tempsOf sources unit day) = some mx →
      listMin (tempsOf sources unit day) = some mn →
      2 ≤ (tempsOf sources unit day).length →
      spreadOf (tempsOf sources unit day) = some (mx - mn, classifySpread (mx - mn))) ∧
    ((tempsOf sources unit day).length ≤ 1 → spreadOf (tempsOf sources unit day) = none) ∧
    classifySpread (3/2) = .tight ∧ classifySpread (150001/100000) = .medium ∧
    classifySpread 3 = .medium ∧ classifySpread (300001/100000) = .wide := by
  obtain ⟨h1, h2, h3⟩ := spreadOf_spec (tempsOf sources unit day)
  refine ⟨h1, h2, h3, ?_, ?_, ?_, ?_⟩ <;> norm_num [classifySpread]

/-- C8 witness: two live sources at `12 °C` and `10 °C` yield the spread
`2` classified `medium`. -/
theorem spread_emission_witness :
    spreadOf (tempsOf [liveA, liveB] TempUnit.C 0) = some (2, SpreadClass.medium) := by
  have ht : tempsOf [liveA, liveB] TempUnit.C 0 = [12, 10] := by
    simp [tempsOf, orderedSources, liveA, liveB, getPrimaryTemp]
  have hmx : listMax (tempsOf [liveA, liveB] TempUnit.C 0) = some 12 := by
    rw [ht]
    simp [listMax]
    norm_num
  have hmn : listMin (tempsOf [liveA, liveB] TempUnit.C 0) = some 10 := by
    rw [ht]
    simp [listMin]
    norm_num
  have hlen : 2 ≤ (tempsOf [liveA, liveB] TempUnit.C 0).length := by
    rw [ht]
    simp
  have h := (spread_emission [liveA, liveB] TempUnit.C 0).2.1 12 10 hmx hmn hlen
  rw [h]
  have hc : classifySpread (12 - 10) = SpreadClass.medium := by
    norm_num [classifySpread]
  rw [hc]
  norm_num

/-- The display ordering of `createCityCard` is a permutation of the
sources of the four displayed kinds — and only those: `scraped`-kind
sources are dropped by it. -/
theorem orderedSources_perm (l : List Source) :
    (orderedSources l).Perm (l.filter fun s => !(s.type == SourceKind.scraped)) := by
  induction l with
  | nil => exact List.Perm.refl _
  | cons x xs ih =>
    cases hx : x.type with
    | live =>
      have e1 : orderedSources (x :: xs) = x :: orderedSources xs := by
        unfold orderedSources
        simp [List.filter_cons, hx]
      have e2 : (x :: xs).filter (fun s => !(s.type == SourceKind.scraped)) =
          x :: xs.filter (fun s => !(s.type == SourceKind.scraped)) := by
        simp [List.filter_cons, hx]
      rw [e1, e2]
      exact ih.cons x
    | recorded =>
      have e1 : orderedSources (x :: xs) =
          xs.filter (fun s => s.type == SourceKind.live) ++
          x :: (xs.filter (fun s => s.type == SourceKind.recorded) ++
            (xs.filter (fun s => s.type == SourceKind.forecast) ++
             xs.filter (fun s => s.type == SourceKind.model))) := by
        unfold orderedSources
        simp [List.filter_cons, hx]
      have e2 : (x :: xs).filter (fun s => !(s.type == SourceKind.scraped)) =
          x :: xs.filter (fun s => !(s.type == SourceKind.scraped)) := by
        simp [List.filter_cons, hx]
      rw [e1, e2]
      unfold orderedSources at ih
      rw [List.append_assoc, List.append_assoc] at ih
      exact List.perm_middle.trans (ih.cons x)
    | forecast =>
      have e1 : orderedSources (x :: xs) =
          xs.filter (fun s => s.type == SourceKind.live) ++
          (xs.filter (fun s => s.type == SourceKind.recorded) ++
           (x :: (xs.filter (fun s => s.type == SourceKind.forecast) ++
             xs.filter (fun s => s.type == SourceKind.model)))) := by
        unfold orderedSources
        simp [List.filter_cons, hx]
      have e2 : (x :: xs).filter (fun s => !(s.type == SourceKind.scraped)) =
          x :: xs.filter (fun s => !(s.type == SourceKind.scraped)) := by
        simp [List.filter_cons, hx]
      rw [e1, e2]
      unfold orderedSources at ih
      rw [List.append_assoc, List.append_assoc] at ih
      exact ((List.Perm.append_left _ List.perm_middle).trans List.perm_middle).trans (ih.cons x)
    | model =>
      have e1 : orderedSources (x :: xs) =
          xs.filter (fun s => s.type == SourceKind.live) ++
          (xs.filter (fun s => s.type == SourceKind.recorded) ++
           (xs.filter (fun s => s.type == SourceKind.forecast) ++
            (x :: xs.filter (fun s => s.type == SourceKind.model)))) := by
        unfold orderedSources
        simp [List.filter_cons, hx]
      have e2 : (x :: xs).filter (fun s => !(s.type == SourceKind.scraped)) =
          x :: xs.filter (fun s => !(s.type == SourceKind.scraped)) := by
        simp [List.filter_cons, hx]
      rw [e1, e2]
      unfold orderedSources at ih
      rw [List.append_assoc, List.append_assoc] at ih
      refine List.Perm.trans ?_ (ih.cons x)
      exact (List.Perm.append_left _
        ((List.Perm.append_left _ List.perm_middle).trans List.perm_middle)).trans
        List.perm_middle
    | scraped =>
      have e1 : orderedSources (x :: xs) = orderedSources xs := by
        unfold orderedSources
        simp [List.filter_cons, hx]
      have e2 : (x :: xs).filter (fun s => !(s.type == SourceKind.scraped)) =
          xs.filter (fun s => !(s.type == SourceKind.scraped)) := by
        simp [List.filter_cons, hx]
      rw [e1, e2]
      exact ih

/-- C9, amended: the displayed average is the arithmetic mean of the
defined primaries of the sources of the four *displayed* kinds (live,
recorded, forecast, model) — `scraped`-kind sources are excluded by the
display-ordering filter even when their primary is defined — and a list
in which every source's primary is null yields a null average (never zero,
never a crash). -/
theorem average_excludes_nulls_amended (sources : List Source) (unit : TempUnit) (day : ℕ) :
    avgOf sources unit day =
      specAverage (sources.filter fun s => !(s.type == SourceKind.scraped)) unit day ∧
    ((sources.filterMap fun s => getPrimaryTemp s unit day) = [] →
      avgOf sources unit day = none) := by
  constructor
  · have hp : (tempsOf sources unit day).Perm
        ((sources.filter fun s => !(s.type == SourceKind.scraped)).filterMap
          fun s => getPrimaryTemp s unit day) :=
      (orderedSources_perm sources).filterMap _
    simp only [avgOf, specAverage]
    rw [hp.length_eq, hp.sum_eq]
  · intro hnull
    have h0 : ∀ p : Source → Bool,
        (sources.filter p).filterMap (fun s => getPrimaryTemp s unit day) = [] := by
      intro p
      have hsub := List.Sublist.filterMap (fun s => getPrimaryTemp s unit day)
        (@List.filter_sublist _ p sources)
      rw [hnull] at hsub
      exact List.sublist_nil.mp hsub
    have ht : tempsOf sources unit day = [] := by
      unfold tempsOf orderedSources
      rw [List.filterMap_append, List.filterMap_append, List.filterMap_append,
        h0, h0, h0, h0]
      rfl
    simp [avgOf, ht]

/-- C9, counterexample: a list holding one `scraped`-kind source with a
defined day-0 primary (`20 °C`).  The mean over the sources with defined
primaries is `20`, but the card computes no average at all, because the
display ordering drops `scraped` sources — refuting the claim that the
average equals the mean over *all* defined primaries. -/
theorem average_excludes_nulls_cex :
    avgOf [scrapedS] TempUnit.C 0 = none ∧
    specAverage [scrapedS] TempUnit.C 0 = some 20 ∧
    avgOf [scrapedS] TempUnit.C 0 ≠ specAverage [scrapedS] TempUnit.C 0 := by
  have h1 : avgOf [scrapedS] TempUnit.C 0 = none := by
    simp [avgOf, tempsOf, orderedSources, scrapedS]
  have h2 : specAverage [scrapedS] TempUnit.C 0 = some 20 := by
    simp [specAverage, getPrimaryTemp, scrapedS]
  refine ⟨h1, h2, ?_⟩
  rw [h1, h2]
  simp

/-- C9 witness: a single live source carrying no temperature yields a null
average through the amended theorem's all-null clause. -/
theorem average_excludes_nulls_amended_witness :
    avgOf [liveNull] TempUnit.C 0 = none := by
  apply (average_excludes_nulls_amended [liveNull] TempUnit.C 0).2
  simp [getPrimaryTemp, liveNull]

/-- The event trace of the scrape loop, independent of the starting index:
one delay followed by one query per target, in order. -/
theorem scrapePassAux_trace (cfg : StationConfig) (d : ℤ) (env : ℕ → Except Unit (Option ℕ)) :
    ∀ (sites : List ScrapeSite) (i : ℕ),
      (scrapePassAux cfg d env sites i).2 =
        sites.flatMap fun s => [ScrapeEvent.delayEv 1500, ScrapeEvent.queryEv s.id] := by
  intro sites
  induction sites with
  | nil => intro i; rfl
  | cons s rest ih =>
    intro i
    simp [scrapePassAux, ih (i + 1), List.flatMap_cons]

theorem queryIds_code_trace (sites : List ScrapeSite) :
    queryIds (sites.flatMap fun s => [ScrapeEvent.delayEv 1500, ScrapeEvent.queryEv s.id]) =
      sites.map ScrapeSite.id := by
  induction sites with
  | nil => rfl
  | cons s rest ih =>
    unfold queryIds at *
    simp only [List.flatMap_cons, List.filterMap_append, ih, List.map_cons]
    rfl

theorem delayCount_code_trace (sites : List ScrapeSite) :
    delayCount (sites.flatMap fun s => [ScrapeEvent.delayEv 1500, ScrapeEvent.queryEv s.id]) =
      sites.length := by
  induction sites with
  | nil => rfl
  | cons s rest ih =>
    unfold delayCount at *
    simp [List.flatMap_cons, List.filter_append, ih]

/-- C6, amended: on a cache miss the scrape sequence issues exactly one
query per configured target, in registry order, but the fixed 1500 ms
delay is charged *before every* target's query — the first included — for
a total of `n` delays for `n` targets, not `n − 1`. -/
theorem scrape_trace_amended (cfg : StationConfig) (sites : List ScrapeSite)
    (d today now : ℤ) (env : ℕ → Except Unit (Option ℕ))
    (hs : cfg.scrapperUrls = some sites) :
    scrapeForecastForDay cfg (some d) today now env [] =
      .ok ((scrapePass cfg d sites env).1,
        insertCache [] (cacheKeyOf cfg d (dateStrOf today d))
          ⟨now, (scrapePass cfg d sites env).1⟩,
        (scrapePass cfg d sites env).2) ∧
    (scrapePass cfg d sites env).2 =
      (sites.flatMap fun s => [ScrapeEvent.delayEv 1500, ScrapeEvent.queryEv s.id]) ∧
    queryIds (scrapePass cfg d sites env).2 = sites.map ScrapeSite.id ∧
    delayCount (scrapePass cfg d sites env).2 = sites.length := by
  have htr : (scrapePass cfg d sites env).2 =
      sites.flatMap fun s => [ScrapeEvent.delayEv 1500, ScrapeEvent.queryEv s.id] :=
    scrapePassAux_trace cfg d env sites 0
  refine ⟨?_, htr, ?_, ?_⟩
  · simp only [scrapeForecastForDay, hs, validCacheLookup, List.lookup_nil]
  · rw [htr, queryIds_code_trace]
  · rw [htr, delayCount_code_trace]

/-- C6 witness: for the single Paris target the trace is one delay
followed by one query. -/
theorem scrape_trace_amended_witness :
    queryIds (scrapePass parisCfgV1 0 [parisSiteV1] envScrapeNone).2 = ["meteo"] ∧
    delayCount (scrapePass parisCfgV1 0 [parisSiteV1] envScrapeNone).2 = 1 := by
  have h := scrape_trace_amended parisCfgV1 [parisSiteV1] 0 0 0 envScrapeNone rfl
  exact ⟨h.2.2.1, h.2.2.2⟩

/-- C6, counterexample: with one configured target (Paris), the executed
trace is `[delay 1500, query]` — one delay, charged *before* the first
query — while the claim demands `n − 1 = 0` delays and no delay before
the first query. -/
theorem scrape_trace_cex :
    (scrapePass parisCfgV1 0 [parisSiteV1] envScrapeNone).2 =
      [ScrapeEvent.delayEv 1500, ScrapeEvent.queryEv "meteo"] ∧
    delayCount (scrapePass parisCfgV1 0 [parisSiteV1] envScrapeNone).2 = 1 ∧
    [parisSiteV1].length - 1 = 0 ∧
    (scrapePass parisCfgV1 0 [parisSiteV1] envScrapeNone).2 ≠
      claimedScrapeTrace [parisSiteV1] := by
  refine ⟨rfl, rfl, rfl, ?_⟩
  intro h
  cases h

/-- C4 (confirmed): with an entry for the key stored at time `T`, a
resolve at request-time `now < T + TTL` returns the stored list, leaves
the cache unchanged and emits no scrape event (in particular no outbound
query); a resolve at `now ≥ T + TTL` ignores the entry, runs the full
scrape sequence, and overwrites the key with a fresh entry. -/
theorem cache_ttl_behavior (cfg : StationConfig) (sites : List ScrapeSite) (d today : ℤ)
    (env : ℕ → Except Unit (Option ℕ)) (T now : ℤ) (data : List Source) (cache : Cache)
    (hs : cfg.scrapperUrls = some sites)
    (hc : cache.lookup (cacheKeyOf cfg d (dateStrOf today d)) = some ⟨T, data⟩) :
    (now - T < CACHE_TTL →
      scrapeForecastForDay cfg (some d) today now env cache = .ok (data, cache, [])) ∧
    (CACHE_TTL ≤ now - T →
      scrapeForecastForDay cfg (some d) today now env cache =
        .ok ((scrapePass cfg d sites env).1,
          insertCache cache (cacheKeyOf cfg d (dateStrOf today d))
            ⟨now, (scrapePass cfg d sites env).1⟩,
          (scrapePass cfg d sites env).2)) := by
  constructor
  · intro hlt
    simp only [scrapeForecastForDay, hs, validCacheLookup, hc, if_pos hlt]
  · intro hge
    have hno : ¬ (now - T < CACHE_TTL) := by omega
    simp only [scrapeForecastForDay, hs, validCacheLookup, hc, if_neg hno]

/-- C4 witness: an entry stored at `T = 0` is served (unchanged cache, no
events) at `now = 299999 ms`, and triggers a fresh scrape pass with an
overwrite at `now = 300000 ms = TTL`. -/
theorem cache_ttl_behavior_witness :
    scrapeForecastForDay londonCfgV1 (some 0) 0 299999 envScrapeErr cacheW =
      .ok ([], cacheW, []) ∧
    scrapeForecastForDay londonCfgV1 (some 0) 0 300000 envScrapeErr cacheW =
      .ok ((scrapePass londonCfgV1 0 londonSitesV1 envScrapeErr).1,
        insertCache cacheW (cacheKeyOf londonCfgV1 0 (dateStrOf 0 0))
          ⟨300000, (scrapePass londonCfgV1 0 londonSitesV1 envScrapeErr).1⟩,
        (scrapePass londonCfgV1 0 londonSitesV1 envScrapeErr).2) := by
  constructor
  · exact (cache_ttl_behavior londonCfgV1 londonSitesV1 0 0 envScrapeErr 0 299999 [] cacheW
      rfl (by decide)).1 (by decide)
  · exact (cache_ttl_behavior londonCfgV1 londonSitesV1 0 0 envScrapeErr 0 300000 [] cacheW
      rfl (by decide)).2 (by decide)

/-- C3, amended: the cache has no in-flight bookkeeping, so two
resolutions of the same key whose cache checks both happen before either
population completes (the claim's scenario) each execute their own full
scrape sequence — two scrape sequences in total, not one — and each caller
receives its own sequence's result; only a request arriving after a
population completes (within the TTL) is deduplicated against the stored
entry. -/
theorem single_flight_amended (cfg : StationConfig) (sites : List ScrapeSite) (d today : ℤ)
    (envA envB : ℕ → Except Unit (Option ℕ)) (tA tB : ℤ)
    (hs : cfg.scrapperUrls = some sites) :
    twoConcurrentResolves cfg d today envA envB tA tB [] =
      ((scrapePass cfg d sites envA).1, (scrapePass cfg d sites envB).1,
        insertCache (insertCache [] (cacheKeyOf cfg d (dateStrOf today d))
            ⟨tA, (scrapePass cfg d sites envA).1⟩)
          (cacheKeyOf cfg d (dateStrOf today d)) ⟨tB, (scrapePass cfg d sites envB).1⟩,
        2) := by
  simp only [twoConcurrentResolves, hs, validCacheLookup, List.lookup_nil]

/-- C3 witness for the amended statement, at the Paris config with both
scrape sequences failing. -/
theorem single_flight_amended_witness :
    twoConcurrentResolves parisCfgV1 0 0 envScrapeErr envScrapeErr 0 0 [] =
      ((scrapePass parisCfgV1 0 [parisSiteV1] envScrapeErr).1,
        (scrapePass parisCfgV1 0 [parisSiteV1] envScrapeErr).1,
        insertCache (insertCache [] (cacheKeyOf parisCfgV1 0 (dateStrOf 0 0))
            ⟨0, (scrapePass parisCfgV1 0 [parisSiteV1] envScrapeErr).1⟩)
          (cacheKeyOf parisCfgV1 0 (dateStrOf 0 0))
          ⟨0, (scrapePass parisCfgV1 0 [parisSiteV1] envScrapeErr).1⟩,
        2) :=
  single_flight_amended parisCfgV1 [parisSiteV1] 0 0 envScrapeErr envScrapeErr 0 0 rfl

/-- C3, counterexample: two concurrent London resolutions of the same key,
both initiated on the empty cache before either population completes, with
one sequence extracting `25` per target and the other finding no match:
the run executes `2` scrape sequences (the claim says exactly one), and
the two callers receive *different* source lists (the claim says they
receive the same list). -/
theorem single_flight_cex :
    (twoConcurrentResolves londonCfgV1 0 0 envScrape25 envScrapeNone 0 0 []).2.2.2 = 2 ∧
    (twoConcurrentResolves londonCfgV1 0 0 envScrape25 envScrapeNone 0 0 []).1 ≠
      (twoConcurrentResolves londonCfgV1 0 0 envScrape25 envScrapeNone 0 0 []).2.1 := by
  refine ⟨rfl, ?_⟩
  have hA : (twoConcurrentResolves londonCfgV1 0 0 envScrape25 envScrapeNone 0 0 []).1.length
      = 4 := rfl
  have hB : (twoConcurrentResolves londonCfgV1 0 0 envScrape25 envScrapeNone 0 0 []).2.1.length
      = 0 := rfl
  intro h
  rw [h, hB] at hA
  cases hA

/-- For every *parsed* (integer) day offset the cache resolve path always
succeeds, whatever the cache and the environments. -/
theorem scrapeForecastForDay_ok (cfg : StationConfig) (d : ℤ) (today now : ℤ)
    (env : ℕ → Except Unit (Option ℕ)) (cache : Cache) :
    ∃ out, scrapeForecastForDay cfg (some d) today now env cache = .ok out := by
  cases hu : cfg.scrapperUrls with
  | none => exact ⟨([], cache, []), by simp only [scrapeForecastForDay, hu]⟩
  | some sites =>
    cases hv : validCacheLookup cache (cacheKeyOf cfg d (dateStrOf today d)) now with
    | none =>
      refine ⟨((scrapePass cfg d sites env).1,
        insertCache cache (cacheKeyOf cfg d (dateStrOf today d))
          ⟨now, (scrapePass cfg d sites env).1⟩,
        (scrapePass cfg d sites env).2), ?_⟩
      simp only [scrapeForecastForDay, hu, hv]
    | some data =>
      refine ⟨(data, cache, []), ?_⟩
      simp only [scrapeForecastForDay, hu, hv]

/-- C10, amended: the v1 route performs no validation of the `day` query
parameter — any *parsable* integer value, however far outside `[0, 2]`,
still yields a normal report (out-of-coverage offsets merely produce model
entries with absent temperatures) — but an *unparsable* value parses to
`NaN`, the scrape target date becomes an Invalid Date whose
`toISOString()` throws, and the request produces no report at all. -/
theorem day_offset_validation_amended (city : String) (cfg : StationConfig) (env : EnvV1)
    (today now : ℤ) (cache : Cache) (dayStr : String)
    (hcfg : STATIONS_V1.lookup (jsToLower city) = some cfg) :
    ((∃ dval, parseDayParam (some dayStr) = some dval) →
      ∃ r c2, handleAllV1 city (some dayStr) env today now cache = .ok (r, c2)) ∧
    (parseDayParam (some dayStr) = none → cfg.scrapperUrls ≠ none →
      handleAllV1 city (some dayStr) env today now cache = .error .exception) := by
  constructor
  · rintro ⟨dval, hd⟩
    obtain ⟨out, hout⟩ := scrapeForecastForDay_ok cfg dval today now env.scrape cache
    obtain ⟨s1, c1, e1⟩ := out
    refine ⟨⟨jsToLower city, cfg.icao, cfg.displayName, cfg.unit,
      openMeteoTaskV1 cfg (some dval) env ++ s1, env.fetchedAt⟩, c1, ?_⟩
    simp only [handleAllV1, hcfg, hd, hout]
  · intro hnan hurl
    obtain ⟨sites, hsites⟩ := Option.ne_none_iff_exists'.mp hurl
    have herr : scrapeForecastForDay cfg none today now env.scrape cache = .error () := by
      simp only [scrapeForecastForDay, hsites]
    simp only [handleAllV1, hcfg, hnan, herr]

/-- C10 witness: the far-out-of-range (but parsable) day value `5` still
yields a normal London report. -/
theorem day_offset_validation_amended_witness :
    ∃ r c2, handleAllV1 "london" (some "5") envV1Fail 0 0 [] = .ok (r, c2) :=
  (day_offset_validation_amended "london" londonCfgV1 envV1Fail 0 0 [] "5" rfl).1
    ⟨5, by rfl⟩

/-- C10, counterexample: the unparsable day value `"abc"` (`parseInt` →
`NaN`) makes the scrape-date computation throw, so the known-city request
`/api/all/london?day=abc` produces no report — refuting the claim that
*every* caller-supplied day value, unparsable ones included, still yields
a normal report. -/
theorem day_offset_validation_cex :
    handleAllV1 "london" (some "abc") envV1Fail 0 0 [] = .error .exception := by
  rfl
